import Mathlib

/-!
Verification of the media upload and gallery application.

The development shallowly embeds the program's operations:
* the upload request handler (`src/app/api/upload/route.ts`, `POST`),
* the client-side uploaded-files list and its local-storage sync
  (`src/app/upload/page.tsx`, gallery page `handleRemove`),
* the gallery filters and counters (gallery page, `Home`),
* the video-player state machine (`VideoPlayer`).

Machine-level details that the claims do not touch (request streaming,
the byte buffer passed to the store, CSS, numeric playback position)
are represented only as far as the source manipulates them.
-/

namespace Upload

/-- A file as seen by the handler through `formData.get("file")`:
its original name, its reported MIME type (`file.type`, possibly empty),
its size in bytes, and its content bytes (`file.arrayBuffer()`). -/
structure FileData where
  name : String
  type : String
  size : Nat
  content : List Nat
  deriving Repr, DecidableEq

/-- The environment variables the handler reads. `r2PublicUrl` is
`none` when `R2_PUBLIC_URL` is not set. -/
structure Env where
  awsS3ApiUrl : String
  awsS3BucketName : String
  r2PublicUrl : Option String
  deriving Repr, DecidableEq

/-- The `PutObjectCommand` constructed before `s3Client.send`. -/
structure PutObjectCommand where
  bucket : String
  key : String
  body : List Nat
  contentType : String
  deriving Repr, DecidableEq

/-- The JSON body returned on success. -/
structure SuccessBody where
  success : Bool
  url : String
  fileName : String
  type : String
  deriving Repr, DecidableEq

/-- The handler's HTTP response: either `NextResponse.json({error}, {status})`
or the success JSON (status 200). -/
inductive UploadResponse where
  | error (status : Nat) (message : String)
  | ok (body : SuccessBody)
  deriving Repr, DecidableEq

/-- `s.startsWith(p)` of JavaScript strings, character by character. -/
def startsWithStr (s p : String) : Bool :=
  List.isPrefixOf p.data s.data

/-- JavaScript truthiness of an optional environment string:
an unset variable and the empty string are both falsy. -/
def envTruthy : Option String → Bool
  | none => false
  | some s => s ≠ ""

/-- One character of `file.name.replace(/[^a-zA-Z0-9.-]/g, "_")`:
characters in the class `[a-zA-Z0-9.-]` are kept, all others become `_`. -/
def sanitizeChar (c : Char) : Char :=
  if c.isAlpha || c.isDigit || c = '.' || c = '-' then c else '_'

/-- `file.name.replace(/[^a-zA-Z0-9.-]/g, "_")`: the global replace
rewrites the name character by character. -/
def sanitizeFileName (s : String) : String :=
  String.mk (s.data.map sanitizeChar)

/-- `` `${Date.now()}-${file.name.replace(...)}` ``: the decimal
timestamp, a hyphen, then the sanitized original name. -/
def makeFileName (now : Nat) (name : String) : String :=
  toString now ++ "-" ++ sanitizeFileName name

/-- The validated core of the handler, from `formData.get("file")` to the
response: it returns the HTTP response together with the
`PutObjectCommand` handed to `s3Client.send` (`none` when no send is
reached). `now` is the value of `Date.now()`. -/
def POST (env : Env) (now : Nat) (file? : Option FileData) :
    UploadResponse × Option PutObjectCommand :=
  match file? with
  | none => (.error 400 "No file provided", none)
  | some file =>
    let isVideo := startsWithStr file.type "video/"
    let isImage := startsWithStr file.type "image/"
    if !isImage && !isVideo then
      (.error 400 "Unsupported file type. Only images and videos are allowed.", none)
    else
      let maxSize := if isVideo then 500 * 1024 * 1024 else 10 * 1024 * 1024
      if file.size > maxSize then
        (.error 400 ("File size exceeds " ++ (if isVideo then "500MB" else "10MB") ++ " limit"),
         none)
      else
        let fileName := makeFileName now file.name
        let contentType :=
          if file.type = "" then (if isVideo then "video/mp4" else "image/jpeg")
          else file.type
        let command : PutObjectCommand :=
          { bucket := env.awsS3BucketName
            key := fileName
            body := file.content
            contentType := contentType }
        let fileUrl :=
          if envTruthy env.r2PublicUrl then
            env.r2PublicUrl.getD "" ++ "/" ++ env.awsS3BucketName ++ "/" ++ fileName
          else
            env.awsS3ApiUrl ++ "/" ++ env.awsS3BucketName ++ "/" ++ fileName
        (.ok { success := true
               url := fileUrl
               fileName := fileName
               type := if isVideo then "video" else "image" },
         some command)

/-- The whole handler body inside its `try`/`catch`: `formData?` is the
result of `request.formData()` (which can throw), `bufferOk` tells
whether `file.arrayBuffer()` succeeds once reached (it runs after the
validations, before the send), and `sendOk` whether `s3Client.send`
succeeds. The second component lists every send actually issued, in
order. Any throw lands in the single `catch`, which responds 500 with
one fixed message and does nothing else. -/
def handleRequest (env : Env) (now : Nat) (formData? : Except Unit (Option FileData))
    (bufferOk : Bool) (sendOk : Bool) : UploadResponse × List PutObjectCommand :=
  match formData? with
  | .error _ => (.error 500 "Failed to upload file", [])
  | .ok file? =>
    match POST env now file? with
    | (resp, none) => (resp, [])
    | (resp, some command) =>
      if !bufferOk then (.error 500 "Failed to upload file", [])
      else if sendOk then (resp, [command])
      else (.error 500 "Failed to upload file", [command])

/-- The HTTP status of a response; `NextResponse.json` without a status
option responds 200. -/
def UploadResponse.status : UploadResponse → Nat
  | .error s _ => s
  | .ok _ => 200

/-- The size limit the handler applies: `500 * 1024 * 1024` when
`file.type` starts with `"video/"`, `10 * 1024 * 1024` otherwise. -/
def sizeLimit (f : FileData) : Nat :=
  if startsWithStr f.type "video/" then 500 * 1024 * 1024 else 10 * 1024 * 1024

/-- The three validations of the handler, in the spec's terms: no
`file` entry, unsupported MIME type, or size above the limit. -/
def validationFails (file? : Option FileData) : Prop :=
  file? = none ∨
    (∃ f, file? = some f ∧
      ¬startsWithStr f.type "image/" = true ∧ ¬startsWithStr f.type "video/" = true) ∨
    (∃ f, file? = some f ∧
      f.size > (if startsWithStr f.type "video/" then 500 * 1024 * 1024 else 10 * 1024 * 1024))

instance (file? : Option FileData) : Decidable (validationFails file?) := by
  unfold validationFails
  cases file? with
  | none => exact .isTrue (Or.inl rfl)
  | some f =>
    by_cases h1 : ¬startsWithStr f.type "image/" = true ∧ ¬startsWithStr f.type "video/" = true
    · exact .isTrue (Or.inr (Or.inl ⟨f, rfl, h1⟩))
    · by_cases h2 : f.size > (if startsWithStr f.type "video/" then 500 * 1024 * 1024 else 10 * 1024 * 1024)
      · exact .isTrue (Or.inr (Or.inr ⟨f, rfl, h2⟩))
      · refine .isFalse ?_
        rintro (h | ⟨g, hg, hga, hgb⟩ | ⟨g, hg, hgs⟩)
        · exact Option.noConfusion h
        · exact h1 (by cases hg; exact ⟨hga, hgb⟩)
        · exact h2 (by cases hg; exact hgs)

end Upload

namespace Client

/-- An entry of the uploaded-files list kept by the pages
(`type UploadedFile = { id, url, name, type? }`); `type` is optional. -/
structure UploadedFile where
  id : String
  url : String
  name : String
  type : Option String
  deriving Repr, DecidableEq

/-- `file.type === "video"` for a stored record. -/
def isVideoRecord (f : UploadedFile) : Bool :=
  f.type = some "video"

/-- `uploadedFiles.filter((f) => f.type !== "video").length`
(the image counter of the gallery, Home and upload pages). -/
def imageCount (files : List UploadedFile) : Nat :=
  (files.filter (fun f => !isVideoRecord f)).length

/-- `uploadedFiles.filter((f) => f.type === "video").length`. -/
def videoCount (files : List UploadedFile) : Nat :=
  (files.filter (fun f => isVideoRecord f)).length

/-- The gallery's filter tabs. -/
inductive GalleryFilter where
  | all
  | image
  | video
  deriving Repr, DecidableEq

/-- The predicate inside `uploadedFiles.filter` of the gallery page:
`all` keeps everything, `image` keeps `file.type !== "video"`,
`video` keeps `file.type === "video"`. -/
def matchesFilter : GalleryFilter → UploadedFile → Bool
  | .all, _ => true
  | .image, f => !isVideoRecord f
  | .video, f => isVideoRecord f

/-- `filteredFiles` of the gallery page. -/
def filteredFiles (fl : GalleryFilter) (files : List UploadedFile) : List UploadedFile :=
  files.filter (matchesFilter fl)

/-- The content of local storage under `"r2-uploaded-files"` after the
pages sync a list `files`: `JSON.stringify(files)` when the list is
non-empty (`setItem`), absence of the key otherwise (`removeItem`).
The serializer (`JSON.stringify`) is external and passed in. -/
def syncStorage (serialize : List UploadedFile → String)
    (files : List UploadedFile) : Option String :=
  if files.length > 0 then some (serialize files) else none

/-- A mutation of the uploaded-files list: completing an upload appends
the new record (`[...prev, uploadedFile]` in `MultipleFileUpload`),
removing filters it out by id (`handleRemove` on both pages). -/
inductive ClientOp where
  | upload (f : UploadedFile)
  | remove (id : String)
  deriving Repr, DecidableEq

/-- The client state the claims see: the in-memory list and the
local-storage slot for key `"r2-uploaded-files"`. -/
structure ClientState where
  files : List UploadedFile
  storage : Option String
  deriving Repr, DecidableEq

/-- One mutation followed by the code's storage write: the upload page's
`useEffect` on `uploadedFiles` and the gallery's `handleRemove` both run
`setItem(STORAGE_KEY, JSON.stringify(updated))` when the updated list is
non-empty and `removeItem(STORAGE_KEY)` when it is empty. -/
def applyOp (serialize : List UploadedFile → String) (s : ClientState) :
    ClientOp → ClientState
  | .upload f =>
    let updated := s.files ++ [f]
    { files := updated, storage := syncStorage serialize updated }
  | .remove id =>
    let updated := s.files.filter (fun g => g.id ≠ id)
    { files := updated, storage := syncStorage serialize updated }

/-- A run of mutations. -/
def runOps (serialize : List UploadedFile → String) (s : ClientState) :
    List ClientOp → ClientState
  | [] => s
  | op :: ops => runOps serialize (applyOp serialize s op) ops

/-- The storage invariant the claim states: the key holds the JSON
serialization of the list when non-empty, and is absent when empty. -/
def storageInvariant (serialize : List UploadedFile → String) (s : ClientState) : Prop :=
  (s.files ≠ [] → s.storage = some (serialize s.files)) ∧
    (s.files = [] → s.storage = none)

end Client

namespace Player

/-- The video player's state variables relevant to error recovery
(`isPlaying`, `error`, `isReady`, `showThumbnail`); the numeric playback
fields (`volume`, `played`, `duration`) are floating point and not used
by the error-recovery logic. -/
structure PlayerState where
  isPlaying : Bool
  error : Option String
  isReady : Bool
  showThumbnail : Bool
  deriving Repr, DecidableEq

/-- The message set by the media element's error paths. -/
def loadErrorMessage : String :=
  "Failed to load video. Please try opening it in a new tab."

/-- The `"error"` event listener and the `onError` callback:
`setError("Failed to load video. ...")` and `setIsPlaying(false)`. -/
def handleError (s : PlayerState) : PlayerState :=
  { s with error := some loadErrorMessage, isPlaying := false }

/-- The `useEffect` keyed on `[url]`: `setError(null)` and
`setIsReady(false)` whenever the `url` prop changes. -/
def onUrlChange (s : PlayerState) : PlayerState :=
  { s with error := none, isReady := false }

/-- What the component renders, at the granularity of its top-level
branches: the no-source placeholder, the error fallback (message plus a
link opening `url` in a new tab), the player with the loading overlay
(`!isReady && !error`), or the ready player. -/
inductive PlayerView where
  | noSource
  | errorFallback (message : String) (linkUrl : String)
  | loading
  | ready
  deriving Repr, DecidableEq

/-- The component's render branches: `if (!url)` the placeholder;
`if (error)` the fallback with the link to `url`; otherwise the player,
showing the loading overlay while `!isReady && !error`. -/
def render (url : String) (s : PlayerState) : PlayerView :=
  if url = "" then .noSource
  else
    match s.error with
    | some m => .errorFallback m url
    | none => if !s.isReady then .loading else .ready

end Player

namespace Upload

lemma POST_no_file (env : Env) (now : Nat) :
    POST env now none = (.error 400 "No file provided", none) := rfl

lemma POST_bad_type (env : Env) (now : Nat) (f : FileData)
    (hi : startsWithStr f.type "image/" = false) (hv : startsWithStr f.type "video/" = false) :
    POST env now (some f) =
      (.error 400 "Unsupported file type. Only images and videos are allowed.", none) := by
  simp [POST, hi, hv]

lemma POST_oversize (env : Env) (now : Nat) (f : FileData)
    (h : startsWithStr f.type "image/" = true ∨ startsWithStr f.type "video/" = true)
    (hs : sizeLimit f < f.size) :
    POST env now (some f) =
      (.error 400 ("File size exceeds " ++
        (if startsWithStr f.type "video/" then "500MB" else "10MB") ++ " limit"), none) := by
  rcases h with h | h <;>
    simp [POST, h, sizeLimit] at hs ⊢ <;>
    simp [hs]

lemma POST_accept (env : Env) (now : Nat) (f : FileData)
    (h : startsWithStr f.type "image/" = true ∨ startsWithStr f.type "video/" = true)
    (hs : f.size ≤ sizeLimit f) :
    POST env now (some f) =
      (.ok { success := true
             url :=
               if envTruthy env.r2PublicUrl then
                 env.r2PublicUrl.getD "" ++ "/" ++ env.awsS3BucketName ++ "/" ++ makeFileName now f.name
               else
                 env.awsS3ApiUrl ++ "/" ++ env.awsS3BucketName ++ "/" ++ makeFileName now f.name
             fileName := makeFileName now f.name
             type := if startsWithStr f.type "video/" then "video" else "image" },
       some { bucket := env.awsS3BucketName
              key := makeFileName now f.name
              body := f.content
              contentType :=
                if f.type = "" then
                  (if startsWithStr f.type "video/" then "video/mp4" else "image/jpeg")
                else f.type }) := by
  rcases h with h | h <;>
    simp [POST, h, sizeLimit] at hs ⊢ <;>
    exact hs

/-- C2: the handler answers 400 with the unsupported-type message exactly
when a file is present and its MIME type starts with neither `"video/"`
nor `"image/"`. -/
theorem claim2_unsupported_type_iff (env : Env) (now : Nat) (file? : Option FileData) :
    (POST env now file?).1 =
        .error 400 "Unsupported file type. Only images and videos are allowed." ↔
      ∃ f, file? = some f ∧
        startsWithStr f.type "video/" = false ∧ startsWithStr f.type "image/" = false := by
  cases file? with
  | none =>
    simp [POST_no_file]
  | some f =>
    constructor
    · intro hresp
      by_cases hi : startsWithStr f.type "image/" = true
      · exfalso
        by_cases hsz : f.size ≤ sizeLimit f
        · rw [POST_accept env now f (Or.inl hi) hsz] at hresp
          exact UploadResponse.noConfusion hresp
        · rw [POST_oversize env now f (Or.inl hi) (Nat.lt_of_not_le hsz)] at hresp
          have hmsg := (UploadResponse.error.inj hresp).2
          by_cases hv : startsWithStr f.type "video/" = true
          · rw [if_pos hv] at hmsg
            exact absurd hmsg (by decide)
          · rw [if_neg hv] at hmsg
            exact absurd hmsg (by decide)
      · by_cases hv : startsWithStr f.type "video/" = true
        · exfalso
          by_cases hsz : f.size ≤ sizeLimit f
          · rw [POST_accept env now f (Or.inr hv) hsz] at hresp
            exact UploadResponse.noConfusion hresp
          · rw [POST_oversize env now f (Or.inr hv) (Nat.lt_of_not_le hsz)] at hresp
            have hmsg := (UploadResponse.error.inj hresp).2
            rw [if_pos hv] at hmsg
            exact absurd hmsg (by decide)
        · exact ⟨f, rfl, Bool.eq_false_iff.mpr hv, Bool.eq_false_iff.mpr hi⟩
    · rintro ⟨g, hg, hv, hi⟩
      cases hg
      rw [POST_bad_type env now f hi hv]

/-- C3: for a present file of supported type, the size validation rejects
with 400 and the matching size message exactly when the size strictly
exceeds the limit (500MB for videos, 10MB otherwise); a file whose size
equals the limit passes and reaches the store write. -/
theorem claim3_size_check (env : Env) (now : Nat) (f : FileData)
    (h : startsWithStr f.type "image/" = true ∨ startsWithStr f.type "video/" = true) :
    ((POST env now (some f)).1 =
        .error 400 ("File size exceeds " ++
          (if startsWithStr f.type "video/" then "500MB" else "10MB") ++ " limit") ↔
      sizeLimit f < f.size) ∧
    (f.size = sizeLimit f → ∃ b c, POST env now (some f) = (.ok b, some c)) := by
  constructor
  · constructor
    · intro hresp
      by_contra hle
      rw [POST_accept env now f h (Nat.le_of_not_lt hle)] at hresp
      exact UploadResponse.noConfusion hresp
    · intro hlt
      rw [POST_oversize env now f h hlt]
  · intro heq
    exact ⟨_, _, POST_accept env now f h (Nat.le_of_eq heq)⟩

lemma POST_of_validationFails (env : Env) (now : Nat) (file? : Option FileData)
    (h : validationFails file?) :
    ∃ m, POST env now file? = (.error 400 m, none) := by
  cases file? with
  | none => exact ⟨"No file provided", POST_no_file env now⟩
  | some f =>
    by_cases hi : startsWithStr f.type "image/" = true
    · refine ⟨_, POST_oversize env now f (Or.inl hi) ?_⟩
      rcases h with h | ⟨g, hg, hgi, _⟩ | ⟨g, hg, hgs⟩
      · exact Option.noConfusion h
      · cases hg; exact absurd hi hgi
      · cases hg; exact hgs
    · by_cases hv : startsWithStr f.type "video/" = true
      · refine ⟨_, POST_oversize env now f (Or.inr hv) ?_⟩
        rcases h with h | ⟨g, hg, _, hgv⟩ | ⟨g, hg, hgs⟩
        · exact Option.noConfusion h
        · cases hg; exact absurd hv hgv
        · cases hg; exact hgs
      · exact ⟨_, POST_bad_type env now f (Bool.eq_false_iff.mpr hi) (Bool.eq_false_iff.mpr hv)⟩

/-- C1: whenever a validation fails, the handler answers 400 and no
`PutObjectCommand` is sent; a send is issued only when every validation
has passed. -/
theorem claim1_validation_gates_store (env : Env) (now : Nat) (file? : Option FileData)
    (bufferOk sendOk : Bool) :
    (validationFails file? →
      ((handleRequest env now (.ok file?) bufferOk sendOk).1).status = 400 ∧
        (handleRequest env now (.ok file?) bufferOk sendOk).2 = []) ∧
    ((handleRequest env now (.ok file?) bufferOk sendOk).2 ≠ [] → ¬validationFails file?) := by
  constructor
  · intro h
    obtain ⟨m, hm⟩ := POST_of_validationFails env now file? h
    simp [handleRequest, hm, UploadResponse.status]
  · intro hne h
    obtain ⟨m, hm⟩ := POST_of_validationFails env now file? h
    simp [handleRequest, hm] at hne

/-- Witness for C1: with no `file` entry in a concrete request, the
validation fails, the status is 400 and no store write is issued. -/
theorem claim1_validation_gates_store_witness :
    validationFails none ∧
    ((handleRequest ⟨"https://api.example.com", "bucket", none⟩ 0 (.ok none) true
        true).1).status = 400 ∧
    (handleRequest ⟨"https://api.example.com", "bucket", none⟩ 0 (.ok none) true true).2 = [] :=
  ⟨Or.inl rfl,
    (claim1_validation_gates_store ⟨"https://api.example.com", "bucket", none⟩ 0 none
      true true).1 (Or.inl rfl)⟩

lemma POST_ok_inv (env : Env) (now : Nat) (f : FileData) (b : SuccessBody)
    (c : PutObjectCommand) (h : POST env now (some f) = (.ok b, some c)) :
    (startsWithStr f.type "image/" = true ∨ startsWithStr f.type "video/" = true) ∧
    f.size ≤ sizeLimit f ∧
    b = { success := true
          url :=
            if envTruthy env.r2PublicUrl then
              env.r2PublicUrl.getD "" ++ "/" ++ env.awsS3BucketName ++ "/" ++ makeFileName now f.name
            else
              env.awsS3ApiUrl ++ "/" ++ env.awsS3BucketName ++ "/" ++ makeFileName now f.name
          fileName := makeFileName now f.name
          type := if startsWithStr f.type "video/" then "video" else "image" } ∧
    c = { bucket := env.awsS3BucketName
          key := makeFileName now f.name
          body := f.content
          contentType :=
            if f.type = "" then
              (if startsWithStr f.type "video/" then "video/mp4" else "image/jpeg")
            else f.type } := by
  by_cases hi : startsWithStr f.type "image/" = true
  · by_cases hsz : f.size ≤ sizeLimit f
    · have hacc := POST_accept env now f (Or.inl hi) hsz
      have heq := hacc.symm.trans h
      obtain ⟨h1, h2⟩ := Prod.mk.inj heq
      exact ⟨Or.inl hi, hsz, (UploadResponse.ok.inj h1).symm, (Option.some.inj h2).symm⟩
    · rw [POST_oversize env now f (Or.inl hi) (Nat.lt_of_not_le hsz)] at h
      exact absurd (Prod.mk.inj h).1 (fun hc => UploadResponse.noConfusion hc)
  · by_cases hv : startsWithStr f.type "video/" = true
    · by_cases hsz : f.size ≤ sizeLimit f
      · have hacc := POST_accept env now f (Or.inr hv) hsz
        have heq := hacc.symm.trans h
        obtain ⟨h1, h2⟩ := Prod.mk.inj heq
        exact ⟨Or.inr hv, hsz, (UploadResponse.ok.inj h1).symm, (Option.some.inj h2).symm⟩
      · rw [POST_oversize env now f (Or.inr hv) (Nat.lt_of_not_le hsz)] at h
        exact absurd (Prod.mk.inj h).1 (fun hc => UploadResponse.noConfusion hc)
    · rw [POST_bad_type env now f (Bool.eq_false_iff.mpr hi) (Bool.eq_false_iff.mpr hv)] at h
      exact absurd (Prod.mk.inj h).1 (fun hc => UploadResponse.noConfusion hc)

lemma sanitizeChar_allowed (ch : Char) :
    ((sanitizeChar ch).isAlpha || (sanitizeChar ch).isDigit ||
      sanitizeChar ch = '.' || sanitizeChar ch = '-' || sanitizeChar ch = '_') = true := by
  unfold sanitizeChar
  by_cases hc : (ch.isAlpha || ch.isDigit || ch = '.' || ch = '-') = true
  · rw [if_pos hc]
    simp only [Bool.or_eq_true, decide_eq_true_eq] at hc ⊢
    tauto
  · rw [if_neg hc]
    decide

/-- C4: for every accepted file, the store key and the returned
`fileName` are the decimal timestamp, a hyphen, and the original name
with every character outside `[a-zA-Z0-9.-]` replaced by `_`; hence the
part after the timestamp prefix uses only letters, digits, `.`, `-`
and `_`. -/
theorem claim4_file_naming (env : Env) (now : Nat) (f : FileData) (b : SuccessBody)
    (c : PutObjectCommand) (h : POST env now (some f) = (.ok b, some c)) :
    b.fileName = toString now ++ "-" ++ sanitizeFileName f.name ∧
    c.key = b.fileName ∧
    ∀ ch ∈ (sanitizeFileName f.name).data,
      (ch.isAlpha || ch.isDigit || ch = '.' || ch = '-' || ch = '_') = true := by
  obtain ⟨-, -, hb, hc⟩ := POST_ok_inv env now f b c h
  refine ⟨by rw [hb]; rfl, by rw [hb, hc], ?_⟩
  intro ch hch
  obtain ⟨a, -, rfl⟩ := List.mem_map.mp hch
  exact sanitizeChar_allowed a

/-- Witness for C4 at a concrete accepted file whose name contains a
space and a parenthesis. -/
theorem claim4_file_naming_witness :
    POST ⟨"https://api.example.com", "bucket", none⟩ 3
        (some ⟨"a (1).png", "image/png", 5, [9]⟩) =
      (.ok ⟨true, "https://api.example.com/bucket/3-a__1_.png", "3-a__1_.png", "image"⟩,
       some ⟨"bucket", "3-a__1_.png", [9], "image/png"⟩) ∧
    "3-a__1_.png" = toString 3 ++ "-" ++ sanitizeFileName "a (1).png" ∧
    "3-a__1_.png" = ("3-a__1_.png" : String) ∧
    ∀ ch ∈ (sanitizeFileName "a (1).png").data,
      (ch.isAlpha || ch.isDigit || ch = '.' || ch = '-' || ch = '_') = true :=
  ⟨by decide,
    claim4_file_naming ⟨"https://api.example.com", "bucket", none⟩ 3
      ⟨"a (1).png", "image/png", 5, [9]⟩
      ⟨true, "https://api.example.com/bucket/3-a__1_.png", "3-a__1_.png", "image"⟩
      ⟨"bucket", "3-a__1_.png", [9], "image/png"⟩ (by decide)⟩

lemma startsWithStr_ne_empty (s p : String) (hp : p.data ≠ [])
    (h : startsWithStr s p = true) : s ≠ "" := by
  intro hs
  subst hs
  cases p with
  | mk l =>
    cases l with
    | nil => exact hp rfl
    | cons a as => simp [startsWithStr, List.isPrefixOf] at h

/-- C5: for every file accepted by the type validation, the
`ContentType` sent to the store is the file's reported MIME type: the
`"video/mp4"`/`"image/jpeg"` fallback fires only on an empty MIME type,
which the type validation excludes. -/
theorem claim5_content_type (env : Env) (now : Nat) (f : FileData) (b : SuccessBody)
    (c : PutObjectCommand) (h : POST env now (some f) = (.ok b, some c)) :
    c.contentType = f.type ∧ f.type ≠ "" := by
  obtain ⟨hsup, -, -, hc⟩ := POST_ok_inv env now f b c h
  have hne : f.type ≠ "" := by
    rcases hsup with hs | hs
    · exact startsWithStr_ne_empty f.type "image/" (by decide) hs
    · exact startsWithStr_ne_empty f.type "video/" (by decide) hs
  refine ⟨?_, hne⟩
  rw [hc]
  simp [hne]

/-- Witness for C5 at a concrete accepted video file. -/
theorem claim5_content_type_witness :
    POST ⟨"https://api.example.com", "bucket", none⟩ 2
        (some ⟨"v.mp4", "video/mp4", 11, [4]⟩) =
      (.ok ⟨true, "https://api.example.com/bucket/2-v.mp4", "2-v.mp4", "video"⟩,
       some ⟨"bucket", "2-v.mp4", [4], "video/mp4"⟩) ∧
    ("video/mp4" : String) = "video/mp4" ∧ ("video/mp4" : String) ≠ "" :=
  ⟨by decide,
    claim5_content_type ⟨"https://api.example.com", "bucket", none⟩ 2
      ⟨"v.mp4", "video/mp4", 11, [4]⟩
      ⟨true, "https://api.example.com/bucket/2-v.mp4", "2-v.mp4", "video"⟩
      ⟨"bucket", "2-v.mp4", [4], "video/mp4"⟩ (by decide)⟩

/-- Witness for C3 at a concrete image file whose size equals the 10MB
limit: the hypothesis holds, the size message is produced exactly when
the limit is strictly exceeded (here it is not), and the file, being at
the limit, is accepted. -/
theorem claim3_size_check_witness :
    (startsWithStr "image/png" "image/" = true ∨
      startsWithStr "image/png" "video/" = true) ∧
    (((POST ⟨"https://api.example.com", "bucket", none⟩ 7
          (some ⟨"a.png", "image/png", 10 * 1024 * 1024, [1]⟩)).1 =
        .error 400 "File size exceeds 10MB limit" ↔
      10 * 1024 * 1024 < 10 * 1024 * 1024) ∧
    (10 * 1024 * 1024 = 10 * 1024 * 1024 →
      ∃ b c, POST ⟨"https://api.example.com", "bucket", none⟩ 7
        (some ⟨"a.png", "image/png", 10 * 1024 * 1024, [1]⟩) = (.ok b, some c))) :=
  ⟨Or.inl (by decide),
    claim3_size_check ⟨"https://api.example.com", "bucket", none⟩ 7
      ⟨"a.png", "image/png", 10 * 1024 * 1024, [1]⟩ (Or.inl (by decide))⟩

/-- Counterexample for C6: with `R2_PUBLIC_URL` set to the empty string
(so the variable is set, but falsy in JavaScript), the handler builds the
URL from `AWS_S3_API_URL`, not from `R2_PUBLIC_URL` as the claim
requires. -/
theorem claim6_counterexample :
    ((⟨"https://api.example.com", "bucket", some ""⟩ : Env).r2PublicUrl).isSome = true ∧
    (POST ⟨"https://api.example.com", "bucket", some ""⟩ 0
        (some ⟨"a.png", "image/png", 1, [2]⟩)).1 =
      .ok ⟨true, "https://api.example.com/bucket/0-a.png", "0-a.png", "image"⟩ ∧
    ("https://api.example.com/bucket/0-a.png" : String) ≠
      "" ++ "/" ++ "bucket" ++ "/" ++ "0-a.png" := by
  refine ⟨rfl, by decide, by decide⟩

/-- C6 (amended): on success the body has `success = true`, `fileName`
equal to the store key, `type` `"video"`/`"image"` by MIME prefix, and
`url` built from `R2_PUBLIC_URL` when that variable is set to a
non-empty string and from `AWS_S3_API_URL` otherwise (also when it is
set but empty). -/
theorem claim6_success_body (env : Env) (now : Nat) (f : FileData) (b : SuccessBody)
    (c : PutObjectCommand) (h : POST env now (some f) = (.ok b, some c)) :
    b.success = true ∧ b.fileName = c.key ∧
    b.type = (if startsWithStr f.type "video/" then "video" else "image") ∧
    b.url = (if envTruthy env.r2PublicUrl then
               env.r2PublicUrl.getD "" ++ "/" ++ env.awsS3BucketName ++ "/" ++ b.fileName
             else
               env.awsS3ApiUrl ++ "/" ++ env.awsS3BucketName ++ "/" ++ b.fileName) := by
  obtain ⟨-, -, hb, hc⟩ := POST_ok_inv env now f b c h
  subst hb hc
  exact ⟨rfl, rfl, rfl, rfl⟩

/-- Witness for C6 at a concrete accepted file with `R2_PUBLIC_URL` set
to a non-empty string. -/
theorem claim6_success_body_witness :
    POST ⟨"https://api.example.com", "bucket", some "https://pub.r2.dev"⟩ 3
        (some ⟨"a b.png", "image/png", 5, [9]⟩) =
      (.ok ⟨true, "https://pub.r2.dev/bucket/3-a_b.png", "3-a_b.png", "image"⟩,
       some ⟨"bucket", "3-a_b.png", [9], "image/png"⟩) ∧
    (true = true ∧ ("3-a_b.png" : String) = "3-a_b.png" ∧
      ("image" : String) = "image" ∧
      ("https://pub.r2.dev/bucket/3-a_b.png" : String) =
        "https://pub.r2.dev" ++ "/" ++ "bucket" ++ "/" ++ "3-a_b.png") :=
  ⟨by decide,
    claim6_success_body ⟨"https://api.example.com", "bucket", some "https://pub.r2.dev"⟩ 3
      ⟨"a b.png", "image/png", 5, [9]⟩
      ⟨true, "https://pub.r2.dev/bucket/3-a_b.png", "3-a_b.png", "image"⟩
      ⟨"bucket", "3-a_b.png", [9], "image/png"⟩ (by decide)⟩

/-- C7: a throw anywhere in the handler — a failing `formData()`, a
failing `arrayBuffer()`, or a failing `s3Client.send` — reaches the
single `catch`, which answers 500 with the one message
`"Failed to upload file"`; the send is attempted at most once, so there
is no retry. -/
theorem claim7_catch_all (env : Env) (now : Nat) (file? : Option FileData)
    (bufferOk sendOk : Bool) :
    handleRequest env now (.error ()) bufferOk sendOk =
      (.error 500 "Failed to upload file", []) ∧
    ((POST env now file?).2.isSome = true → (bufferOk = false ∨ sendOk = false) →
      (handleRequest env now (.ok file?) bufferOk sendOk).1 =
        .error 500 "Failed to upload file") ∧
    (handleRequest env now (.ok file?) bufferOk sendOk).2.length ≤ 1 := by
  refine ⟨rfl, ?_, ?_⟩
  · intro hsome hfail
    rcases hp : POST env now file? with ⟨resp, o⟩
    cases o with
    | none => rw [hp] at hsome; simp at hsome
    | some cmd =>
      cases bufferOk <;> cases sendOk <;>
        simp_all [handleRequest, hp]
  · rcases hp : POST env now file? with ⟨resp, o⟩
    cases o with
    | none => simp [handleRequest, hp]
    | some cmd =>
      cases bufferOk <;> cases sendOk <;> simp [handleRequest, hp]

/-- Witness for C7: a concrete valid upload whose store send fails is
answered 500 with the fixed message, and at most one send was issued. -/
theorem claim7_catch_all_witness :
    (POST ⟨"https://api.example.com", "bucket", none⟩ 0
        (some ⟨"a.png", "image/png", 1, [2]⟩)).2.isSome = true ∧
    (handleRequest ⟨"https://api.example.com", "bucket", none⟩ 0
        (.ok (some ⟨"a.png", "image/png", 1, [2]⟩)) true false).1 =
      .error 500 "Failed to upload file" ∧
    (handleRequest ⟨"https://api.example.com", "bucket", none⟩ 0
        (.ok (some ⟨"a.png", "image/png", 1, [2]⟩)) true false).2.length ≤ 1 :=
  ⟨by decide,
    (claim7_catch_all ⟨"https://api.example.com", "bucket", none⟩ 0
      (some ⟨"a.png", "image/png", 1, [2]⟩) true false).2.1 (by decide) (Or.inr rfl),
    (claim7_catch_all ⟨"https://api.example.com", "bucket", none⟩ 0
      (some ⟨"a.png", "image/png", 1, [2]⟩) true false).2.2⟩

end Upload

namespace Client

lemma applyOp_storage_synced (serialize : List UploadedFile → String) (s : ClientState)
    (op : ClientOp) :
    (applyOp serialize s op).storage = syncStorage serialize (applyOp serialize s op).files := by
  cases op <;> rfl

lemma runOps_storage_synced (serialize : List UploadedFile → String) (ops : List ClientOp) :
    ∀ s : ClientState, s.storage = syncStorage serialize s.files →
      (runOps serialize s ops).storage = syncStorage serialize (runOps serialize s ops).files := by
  induction ops with
  | nil => intro s h; exact h
  | cons op ops ih =>
    intro s _
    exact ih (applyOp serialize s op) (applyOp_storage_synced serialize s op)

/-- C8: after every mutation of the uploaded-files list (an upload
completion or a removal), the local-storage key holds the JSON
serialization of the current list when it is non-empty and is removed
when it is empty; the serializer (`JSON.stringify`) is arbitrary. -/
theorem claim8_local_storage_sync (serialize : List UploadedFile → String)
    (fs : List UploadedFile) (ops : List ClientOp) :
    ((runOps serialize ⟨fs, syncStorage serialize fs⟩ ops).files ≠ [] →
      (runOps serialize ⟨fs, syncStorage serialize fs⟩ ops).storage =
        some (serialize (runOps serialize ⟨fs, syncStorage serialize fs⟩ ops).files)) ∧
    ((runOps serialize ⟨fs, syncStorage serialize fs⟩ ops).files = [] →
      (runOps serialize ⟨fs, syncStorage serialize fs⟩ ops).storage = none) := by
  have h := runOps_storage_synced serialize ops ⟨fs, syncStorage serialize fs⟩ rfl
  constructor
  · intro hne
    rw [h]
    have hlen := List.length_pos.mpr hne
    simp [syncStorage, hlen]
    exact hne
  · intro he
    rw [h, he]
    rfl

/-- Witness for C8: one concrete upload followed by the removal of an
absent id leaves a one-element list, and the key holds its
serialization. -/
theorem claim8_local_storage_sync_witness :
    (runOps (fun l => toString l.length)
        ⟨[], syncStorage (fun l => toString l.length) []⟩
        [ClientOp.upload ⟨"1", "u", "n", some "video"⟩, ClientOp.remove "x"]).files ≠ [] ∧
    (runOps (fun l => toString l.length)
        ⟨[], syncStorage (fun l => toString l.length) []⟩
        [ClientOp.upload ⟨"1", "u", "n", some "video"⟩, ClientOp.remove "x"]).storage =
      some ((fun l => toString l.length)
        (runOps (fun l => toString l.length)
          ⟨[], syncStorage (fun l => toString l.length) []⟩
          [ClientOp.upload ⟨"1", "u", "n", some "video"⟩, ClientOp.remove "x"]).files) :=
  ⟨by decide,
    (claim8_local_storage_sync (fun l => toString l.length) []
      [ClientOp.upload ⟨"1", "u", "n", some "video"⟩, ClientOp.remove "x"]).1 (by decide)⟩

lemma length_filter_partition (files : List UploadedFile) (p : UploadedFile → Bool) :
    (files.filter (fun f => !p f)).length + (files.filter (fun f => p f)).length
      = files.length := by
  induction files with
  | nil => rfl
  | cons g gs ih =>
    cases hg : p g <;> simp [List.filter, hg] <;> omega

/-- C10: the image filter (`type !== "video"`) and the video filter
(`type === "video"`) partition any stored list: every record matches
exactly one of the two, and the image count plus the video count equals
the total number of files. -/
theorem claim10_gallery_partition (files : List UploadedFile) (f : UploadedFile) :
    imageCount files + videoCount files = files.length ∧
    (filteredFiles .image files).length + (filteredFiles .video files).length
      = files.length ∧
    matchesFilter .image f = !matchesFilter .video f := by
  refine ⟨length_filter_partition files isVideoRecord, ?_, rfl⟩
  exact length_filter_partition files isVideoRecord

end Client

namespace Player

/-- C9: a media-element error records the error message and stops
playback, and the component then renders the fallback view with a link
to the video URL; assigning a new url clears the error and the ready
flag, so the component renders the loading state again. -/
theorem claim9_error_recovery (s : PlayerState) (url newUrl : String)
    (h1 : url ≠ "") (h2 : newUrl ≠ "") :
    (handleError s).error = some loadErrorMessage ∧
    (handleError s).isPlaying = false ∧
    render url (handleError s) = .errorFallback loadErrorMessage url ∧
    (onUrlChange s).error = none ∧
    (onUrlChange s).isReady = false ∧
    render newUrl (onUrlChange s) = .loading := by
  refine ⟨rfl, rfl, ?_, rfl, rfl, ?_⟩
  · simp [render, handleError, h1]
  · simp [render, onUrlChange, h2]

/-- Witness for C9 at a concrete playing state and concrete urls. -/
theorem claim9_error_recovery_witness :
    ("u" : String) ≠ "" ∧ ("v" : String) ≠ "" ∧
    ((handleError ⟨true, none, true, false⟩).error = some loadErrorMessage ∧
     (handleError ⟨true, none, true, false⟩).isPlaying = false ∧
     render "u" (handleError ⟨true, none, true, false⟩) =
       .errorFallback loadErrorMessage "u" ∧
     (onUrlChange ⟨true, none, true, false⟩).error = none ∧
     (onUrlChange ⟨true, none, true, false⟩).isReady = false ∧
     render "v" (onUrlChange ⟨true, none, true, false⟩) = .loading) :=
  ⟨by decide, by decide,
    claim9_error_recovery ⟨true, none, true, false⟩ "u" "v" (by decide) (by decide)⟩

end Player
